import Mathlib

/-!
Verification of the knowledge-vault RAG core
(`agentic-service/services/vault.py`, class `VaultIngestionService`).

The embedding models the service's control flow directly, including a
decisive defect of the source: vault.py only does `import faiss` and
only ever assigns `self.embedder_model`, yet lines 78 and 132 reference
the undefined class `FAISS` (`FAISS.from_texts`, `FAISS.load_local`)
and the undefined attribute `self.embedder`.  Python resolves the
callee `FAISS.from_texts` / `FAISS.load_local` before its arguments, so
both sites raise `NameError: name 'FAISS' is not defined`.
Consequently `_load_or_create_index` returns `None` when the index
directory is empty and raises `NameError` otherwise; it can never
return a loaded store.  The embedding keeps the textual structure of
the source (the filtering loop, the citation loop, the prompt building,
the store-append branch) and makes the `NameError` explicit as an
`Except` error, so that reachability is proved, not assumed.

External collaborators are abstracted as parameters:
  * the FAISS similarity ranking that line 153 would invoke becomes a
    `SearchFn` argument (the branch that would use it is unreachable);
  * text extraction (`_extract_text`) becomes an
    `extract : String → String` argument applied to the stored bytes;
  * the `RecursiveCharacterTextSplitter` becomes a
    `split : String → List String` argument;
  * the OpenAI chat call becomes an `Except`-valued `ModelCall`
    (batched) or a `ModelStream` (streaming).
Filesystem state is a `FileSystem` record: the upload directory as an
association list from file names to contents, and the persisted FAISS
snapshot as an optional list of index entries (`none` = the index
directory is empty).  Similarity scores are carried through untouched
by the code, so they are modelled as `Int`.
-/

namespace Vault

/-- Metadata attached to each indexed chunk (vault.py lines 63-73). -/
structure Metadata where
  document_id : String
  user_id : String
  chunk_index : Nat
  title : String
  notes : Option String
  source_path : String
deriving DecidableEq

/-- One persisted `(chunk text, metadata)` index entry; the embedding
vector would be computed and stored by FAISS and is never inspected by
the service, so it is not modelled. -/
structure IndexEntry where
  text : String
  metadata : Metadata
deriving DecidableEq

/-- One retrieval result as built by `query_documents` (lines 159-165). -/
structure Chunk where
  text : String
  title : String
  document_id : String
  chunk_index : Nat
  relevance_score : Int
deriving DecidableEq

/-- One `{title, document_id}` citation (lines 200-203). -/
structure Citation where
  title : String
  document_id : String
deriving DecidableEq

/-- The on-disk state the service touches: uploaded files and the FAISS
snapshot directory. -/
structure FileSystem where
  uploads : List (String × String)
  indexSnapshot : Option (List IndexEntry)
deriving DecidableEq

/-- An incoming `UploadFile`: `filename` is optional, and the body is a
byte string. -/
structure Upload where
  filename : Option String
  contents : String
deriving DecidableEq

/-- The exceptions `ingest_document` can raise: the two explicit
`ValueError`s of lines 56 and 60, and the `NameError` raised at
line 132 (`FAISS.load_local`) or line 78 (`FAISS.from_texts`) because
the name `FAISS` is never imported. -/
inductive IngestError where
  | emptyDocument
  | chunking
  | nameError
deriving DecidableEq

/-- The exception escaping the query paths: `NameError: name 'FAISS' is
not defined`, raised inside `_load_or_create_index` (line 132) whenever
the index directory is non-empty. -/
inductive PyError where
  | nameError
deriving DecidableEq

/-- The ingestion receipt the source intends to return (lines 86-92);
unreachable in the program as written. -/
structure Receipt where
  documentId : String
  chunkCount : Nat
  tokenEstimate : Nat
  filePath : String
  message : String
deriving DecidableEq

/-- The FAISS similarity search, abstracted: given loaded entries, a
query string and the candidate count `k`, return the ranked
`(entry, score)` list.  The code path that would call it is
unreachable (the store never loads), but the call site at line 153 is
kept in the model. -/
def SearchFn := List IndexEntry → String → Nat → List (IndexEntry × Int)

/-- `_load_or_create_index` (lines 129-136): when the index directory
is empty it returns `None`; when files are present it evaluates
`FAISS.load_local(...)` — but `FAISS` is undefined (only the lowercase
module `faiss` is imported), so a `NameError` is raised.  A loaded
store is never produced. -/
def loadOrCreateIndex (st : FileSystem) :
    Except PyError (Option (List IndexEntry)) :=
  match st.indexSnapshot with
  | none => Except.ok none
  | some _ => Except.error PyError.nameError

/-- Writing a file: `open("wb")` truncates, so an existing entry at the
same path is overwritten. -/
def setFile (fs : List (String × String)) (path content : String) :
    List (String × String) :=
  (path, content) :: fs.filter (fun p => p.1 ≠ path)

/-- The upload path of line 95, `f"{document_id}_{upload.filename or
'document'}"`: Python `or` substitutes `"document"` for both a missing
filename and the falsy empty string. -/
def uploadTarget (document_id : String) (filename : Option String) : String :=
  document_id ++ "_" ++
    (match filename with
     | some f => if f = "" then "document" else f
     | none => "document")

/-- The result-row constructor of `query_documents` (lines 159-165). -/
def toChunk (e : IndexEntry) (score : Int) : Chunk :=
  { text := e.text
    title := e.metadata.title
    document_id := e.metadata.document_id
    chunk_index := e.metadata.chunk_index
    relevance_score := score }

/-- The tenant filter of line 158. -/
def userMatches (uid : String) (p : IndexEntry × Int) : Bool :=
  p.1.metadata.user_id = uid

/-- The filtering loop of `query_documents` (lines 156-167): append
each candidate owned by the caller, and `break` as soon as the
accumulated length (`acc` collected, plus the one just appended)
reaches `top_k`.  Unreachable in the program (the store never loads),
kept as the translation of the source text. -/
def filterLoop (uid : String) (top_k : Nat) (acc : Nat) :
    List (IndexEntry × Int) → List Chunk
  | [] => []
  | p :: rest =>
      if userMatches uid p then
        if top_k ≤ acc + 1 then [toChunk p.1 p.2]
        else toChunk p.1 p.2 :: filterLoop uid top_k (acc + 1) rest
      else filterLoop uid top_k acc rest

/-- `query_documents` (lines 138-169): load the store.  An empty index
directory yields `None` and the function returns `[]` (line 150); a
populated directory raises `NameError` inside `_load_or_create_index`,
which propagates to the caller.  The over-fetching search and filter of
lines 153-167 sit on the unreachable loaded-store branch. -/
def queryDocuments (searchFn : SearchFn) (st : FileSystem)
    (query user_id : String) (top_k : Nat) : Except PyError (List Chunk) :=
  match loadOrCreateIndex st with
  | Except.error e => Except.error e
  | Except.ok none => Except.ok []
  | Except.ok (some entries) =>
      Except.ok (filterLoop user_id top_k 0 (searchFn entries query (top_k * 3)))

/-- The per-chunk metadata list built in lines 63-73:
`[{...} for idx in range(len(chunks))]`. -/
def buildMetadatas (n : Nat) (document_id user_id title : String)
    (notes : Option String) (source_path : String) : List Metadata :=
  (List.range n).map fun idx =>
    { document_id := document_id
      user_id := user_id
      chunk_index := idx
      title := title
      notes := notes
      source_path := source_path }

/-- `store.add_texts(chunks, metadatas)` pairs each chunk with its
metadata row, in order (unreachable in the program). -/
def buildEntries (chunks : List String) (document_id user_id title : String)
    (notes : Option String) (source_path : String) : List IndexEntry :=
  List.zipWith (fun t m => IndexEntry.mk t m) chunks
    (buildMetadatas chunks.length document_id user_id title notes source_path)

/-- Python's `str.isspace` / `str.strip` whitespace class: ASCII
whitespace including vertical tab and form feed, the file/group/record/
unit separators, NEL, and the Unicode space characters. -/
def isPythonSpace (c : Char) : Bool :=
  decide (c = ' ' ∨ c = '\t' ∨ c = '\n' ∨ c = '\x0b' ∨ c = '\x0c' ∨
    c = '\r' ∨ c = '\x1c' ∨ c = '\x1d' ∨ c = '\x1e' ∨ c = '\x1f' ∨
    c = '\x85' ∨ c = '\u00a0' ∨ c = '\u1680' ∨
    ('\u2000' ≤ c ∧ c ≤ '\u200a') ∨ c = '\u2028' ∨ c = '\u2029' ∨
    c = '\u202f' ∨ c = '\u205f' ∨ c = '\u3000')

/-- The emptiness test `not raw_text.strip()` of line 55: the stripped
string is empty exactly when every character is Python whitespace. -/
def isEffectivelyEmpty (s : String) : Bool :=
  s.data.all isPythonSpace

/-- `ingest_document` (lines 44-92): persist the upload, extract, check
for emptiness (`ValueError`), chunk (`ValueError` when empty), then
touch the store: with a populated index directory
`_load_or_create_index` raises `NameError` at line 132; with an empty
one the store is `None` and line 78 (`FAISS.from_texts`) raises
`NameError`.  The append/save/receipt tail (lines 76-92, kept in the
model) is unreachable.  The state is returned in both outcomes,
matching Python exceptions leaving the already-performed file write in
place.  `tokenEstimate` is `math.ceil(len(raw_text) / 4)` = on naturals
`(len + 3) / 4`. -/
def ingest_document (split : String → List String) (extract : String → String)
    (st : FileSystem) (upload : Upload) (document_id user_id title : String)
    (notes : Option String) : FileSystem × Except IngestError Receipt :=
  let target := uploadTarget document_id upload.filename
  let st1 : FileSystem := { st with uploads := setFile st.uploads target upload.contents }
  let raw_text := extract upload.contents
  if isEffectivelyEmpty raw_text then (st1, Except.error IngestError.emptyDocument)
  else
    let chunks := split raw_text
    if chunks = [] then (st1, Except.error IngestError.chunking)
    else
      match loadOrCreateIndex st1 with
      | Except.error _ => (st1, Except.error IngestError.nameError)
      | Except.ok none => (st1, Except.error IngestError.nameError)
      | Except.ok (some oldEntries) =>
          let entries := oldEntries ++
            buildEntries chunks document_id user_id title notes target
          let st2 : FileSystem := { st1 with indexSnapshot := some entries }
          (st2, Except.ok
            { documentId := document_id
              chunkCount := chunks.length
              tokenEstimate := (raw_text.length + 3) / 4
              filePath := target
              message := "Document ingested and indexed." })

/-- The citation-building loop shared by `generate_answer`
(lines 192-204) and `generate_answer_stream` (lines 271-283): walk the
ranked chunks, emitting a `{title, document_id}` citation the first
time each `(document_id, title)` pair is seen.  Only reachable with a
non-empty chunk list, which the program never produces. -/
def buildCitationsLoop : List Chunk → List (String × String) → List Citation
  | [], _ => []
  | c :: rest, seen =>
      if (c.document_id, c.title) ∈ seen then buildCitationsLoop rest seen
      else { title := c.title, document_id := c.document_id } ::
        buildCitationsLoop rest ((c.document_id, c.title) :: seen)

/-- Citations built from a ranked chunk list, starting from an empty
`seen_docs` set. -/
def buildCitations (chunks : List Chunk) : List Citation :=
  buildCitationsLoop chunks []

/-- The `[Source N] text` context lines of lines 196-197 (1-based). -/
def contextParts (chunks : List Chunk) : List String :=
  chunks.enum.map fun p => "[Source " ++ toString (p.1 + 1) ++ "] " ++ p.2.text

/-- The joined context block (line 206 / 288). -/
def contextOf (chunks : List Chunk) : String :=
  String.intercalate "\n\n" (contextParts chunks)

/-- The fixed system prompt (lines 210-216 / 292-298). -/
def systemPrompt : String :=
  "You are a helpful travel assistant. Answer the user\x27s question based on the provided context from their uploaded documents.\n\nIMPORTANT:\n- Only use information from the provided sources\n- If the context doesn\x27t contain the answer, say so clearly\n- Cite sources using [Source N] format when referencing information\n- Be concise but comprehensive"

/-- The user prompt template (lines 218-223 / 300-305). -/
def userPrompt (context query : String) : String :=
  "Context from user\x27s documents:\n" ++ context ++ "\n\nUser\x27s question: " ++
    query ++ "\n\nAnswer the question based on the context above. Include [Source N] citations."

/-- The batched OpenAI chat call, abstracted: prompts in, either an
answer plus `usage.total_tokens`, or a raised exception rendered as its
message string. -/
def ModelCall := String → String → Except String (String × Nat)

/-- The batched result dictionary of `generate_answer`; keys absent in
a given branch are `none`. -/
structure AnswerResult where
  answer : String
  chunks : List Chunk
  citations : List Citation
  tokens_used : Option Nat
  error : Option String
deriving DecidableEq

/-- The fixed reply when retrieval finds nothing (lines 184-189). -/
def noDocumentsAnswer : AnswerResult :=
  { answer := "I don\x27t have any documents in your Knowledge Vault yet. Please upload some travel guides or notes first!"
    chunks := []
    citations := []
    tokens_used := none
    error := none }

/-- `generate_answer` (lines 171-251): retrieval runs at line 182,
outside the `try` of lines 225-251, so a `NameError` from
`query_documents` propagates to the caller uncaught.  An empty chunk
list short-circuits to the fixed no-documents reply.  The context,
citation and model-call logic is kept, on the branch the program can
never reach. -/
def generate_answer (searchFn : SearchFn) (st : FileSystem)
    (complete : ModelCall) (query user_id : String) (top_k : Nat) :
    Except PyError AnswerResult :=
  match queryDocuments searchFn st query user_id top_k with
  | Except.error e => Except.error e
  | Except.ok chunks =>
      Except.ok
        (if chunks.isEmpty then noDocumentsAnswer
         else
           let citations := buildCitations chunks
           match complete systemPrompt (userPrompt (contextOf chunks) query) with
           | Except.ok (ans, toks) =>
               { answer := ans, chunks := chunks, citations := citations
                 tokens_used := some toks, error := none }
           | Except.error e =>
               { answer := "Error generating answer: " ++ e, chunks := chunks
                 citations := citations, tokens_used := none, error := some e })

/-- One server-sent event of `generate_answer_stream` (the JSON payload
of each `data:` line). -/
inductive StreamEvent where
  | citations (cs : List Citation)
  | token (content : String)
  | done
  | error (content : String)
deriving DecidableEq

/-- The streaming OpenAI call, abstracted: the sequence of
`delta.content` values observed (each possibly `None`), ending either
normally or in a raised exception after the listed deltas. -/
inductive ModelStream where
  | ok (deltas : List (Option String))
  | failAfter (deltas : List (Option String)) (err : String)
deriving DecidableEq

/-- Python truthiness of `chunk.choices[0].delta.content`: `None` and
the empty string are falsy. -/
def deltaContent (d : Option String) : Option String :=
  match d with
  | some s => if s = "" then none else some s
  | none => none

/-- The token-event loop of lines 319-322: a `token` event is yielded
only for deltas whose content is truthy. -/
def tokenEvents (deltas : List (Option String)) : List StreamEvent :=
  deltas.filterMap fun d => (deltaContent d).map StreamEvent.token

/-- `generate_answer_stream` (lines 253-328) as the pair of (events
yielded, exception escaping the generator).  Retrieval at line 264
precedes every `yield` and the `try` of lines 307-328, so on a
populated index the generator raises `NameError` on first `next()`
having yielded nothing.  With no index, a single `error` event is
yielded.  The citations/token/terminal branch is kept on the
unreachable non-empty-chunks path. -/
def generate_answer_stream (searchFn : SearchFn) (st : FileSystem)
    (ms : ModelStream) (query user_id : String) (top_k : Nat) :
    List StreamEvent × Option PyError :=
  match queryDocuments searchFn st query user_id top_k with
  | Except.error e => ([], some e)
  | Except.ok chunks =>
      if chunks.isEmpty then
        ([StreamEvent.error "No documents found in your Knowledge Vault"], none)
      else
        (StreamEvent.citations (buildCitations chunks) ::
          (match ms with
           | ModelStream.ok deltas => tokenEvents deltas ++ [StreamEvent.done]
           | ModelStream.failAfter deltas e => tokenEvents deltas ++ [StreamEvent.error e]),
         none)

section Lemmas

/-- Looking up a path just written returns the written content. -/
lemma lookup_setFile (fs : List (String × String)) (path content : String) :
    (setFile fs path content).lookup path = some content := by
  simp [setFile, List.lookup]

/-- Every ingestion fails: the two `ValueError` checks catch degenerate
inputs, and every input passing them reaches an undefined-`FAISS` site
(`load_local` on a populated index directory, `from_texts` on an empty
one).  The returned state always carries the upload write and the
untouched snapshot. -/
lemma ingest_always_fails (split : String → List String)
    (extract : String → String) (st : FileSystem) (upload : Upload)
    (document_id user_id title : String) (notes : Option String) :
    ∃ e, ingest_document split extract st upload document_id user_id title notes =
      (FileSystem.mk
        (setFile st.uploads (uploadTarget document_id upload.filename) upload.contents)
        st.indexSnapshot,
       Except.error e) := by
  by_cases h1 : isEffectivelyEmpty (extract upload.contents) = true
  · refine ⟨IngestError.emptyDocument, ?_⟩
    simp only [ingest_document]
    rw [if_pos h1]
  · by_cases h2 : split (extract upload.contents) = []
    · refine ⟨IngestError.chunking, ?_⟩
      simp only [ingest_document]
      rw [if_neg h1, if_pos h2]
    · refine ⟨IngestError.nameError, ?_⟩
      simp only [ingest_document, loadOrCreateIndex]
      rw [if_neg h1, if_neg h2]
      cases st.indexSnapshot with
      | none => rfl
      | some entries => rfl

end Lemmas

section Fixtures

/-- Metadata of user u1's document d1, chunk 0. -/
def md1 : Metadata :=
  { document_id := "d1", user_id := "u1", chunk_index := 0, title := "T1"
    notes := none, source_path := "p1" }

/-- Metadata of user u1's document d1, chunk 1. -/
def md2 : Metadata :=
  { document_id := "d1", user_id := "u1", chunk_index := 1, title := "T1"
    notes := none, source_path := "p1" }

/-- Metadata of user u2's document d2, chunk 0. -/
def md3 : Metadata :=
  { document_id := "d2", user_id := "u2", chunk_index := 0, title := "T2"
    notes := none, source_path := "p2" }

/-- Indexed chunk 0 of document d1. -/
def entry1 : IndexEntry := { text := "alpha", metadata := md1 }

/-- Indexed chunk 1 of document d1. -/
def entry2 : IndexEntry := { text := "beta", metadata := md2 }

/-- Indexed chunk 0 of document d2, owned by the other tenant. -/
def entry3 : IndexEntry := { text := "gamma", metadata := md3 }

/-- A fixed ranking (never actually consulted by the program: the store
load fails first). -/
def sampleSearch : SearchFn := fun _ _ _ => [(entry3, 0), (entry1, 1), (entry2, 2)]

/-- A state whose persisted index directory is non-empty: the state at
which every store load raises `NameError`. -/
def sampleState : FileSystem :=
  { uploads := [], indexSnapshot := some [entry1, entry2, entry3] }

/-- A state whose index directory is empty: the only state at which
retrieval completes (returning `[]`). -/
def emptyDirState : FileSystem :=
  { uploads := [], indexSnapshot := none }

/-- An upload with non-empty extractable text. -/
def sampleUpload : Upload := { filename := some "a.txt", contents := "hi" }

/-- An empty upload whose extraction strips to nothing. -/
def emptyUpload : Upload := { filename := some "e.txt", contents := "" }

end Fixtures

/-- C1 (code bug): tenant isolation is the intent (the function's own
docstring says "Filters results by user_id to ensure data isolation"),
but `query_documents` can never return a chunk at all: on the populated
index it raises `NameError` (`FAISS` is never imported) before any
filtering, and on an empty index it returns `[]`.  The filtering path
the claim describes never executes. -/
theorem tenant_isolation_code_bug :
    queryDocuments sampleSearch sampleState "q" "u1" 1 =
        Except.error PyError.nameError ∧
      queryDocuments sampleSearch emptyDirState "q" "u1" 1 = Except.ok [] :=
  ⟨rfl, rfl⟩

/-- C2 (code bug): ingestion of a non-empty document never appends
entries, never saves a snapshot and never returns a receipt: with a
populated index directory `FAISS.load_local` raises `NameError`, with
an empty one `FAISS.from_texts` does.  The snapshot is left untouched
in both cases. -/
theorem ingest_receipt_code_bug :
    (ingest_document (fun s => [s]) (fun s => s) sampleState sampleUpload
        "d7" "u7" "T7" none).2 = Except.error IngestError.nameError ∧
      (ingest_document (fun s => [s]) (fun s => s) sampleState sampleUpload
          "d7" "u7" "T7" none).1.indexSnapshot = sampleState.indexSnapshot ∧
      (ingest_document (fun s => [s]) (fun s => s) emptyDirState sampleUpload
          "d7" "u7" "T7" none).2 = Except.error IngestError.nameError :=
  ⟨rfl, rfl, rfl⟩

/-- C3 (code bug): on any populated-index state the streaming generator
raises `NameError` during retrieval, before its first `yield` and
before the `try` — zero events are emitted and no terminal event ends
the sequence, contradicting the claimed citations/token/terminal
protocol.  The only reachable event sequence is the single `error`
event of the empty-index state. -/
theorem stream_order_code_bug :
    generate_answer_stream sampleSearch sampleState (ModelStream.ok [some "x"])
        "q" "u1" 2 = ([], some PyError.nameError) ∧
      generate_answer_stream sampleSearch emptyDirState (ModelStream.ok [some "x"])
          "q" "u1" 2 =
        ([StreamEvent.error "No documents found in your Knowledge Vault"], none) :=
  ⟨rfl, rfl⟩

/-- C4 (code bug): a retrieval result set with N ≥ 1 chunks never
exists, and at every state that would produce one `generate_answer`
raises `NameError` during retrieval, before the citation loop runs —
no citations list is ever built. -/
theorem citation_dedup_code_bug :
    generate_answer sampleSearch sampleState (fun _ _ => Except.ok ("A", 5))
        "q" "u1" 2 = Except.error PyError.nameError :=
  rfl

/-- C5: when the extracted text strips to the empty string (every
character Python whitespace), `ingest_document` fails with the
empty-document error, the result is independent of the splitter (no
chunking work is reached), the persisted index is unchanged, and any
subsequent search returns exactly what it returned before the failed
attempt. -/
theorem ingest_empty_atomic (split : String → List String)
    (extract : String → String) (st : FileSystem) (upload : Upload)
    (document_id user_id title : String) (notes : Option String)
    (h : isEffectivelyEmpty (extract upload.contents) = true) :
    (ingest_document split extract st upload document_id user_id title notes).2 =
        Except.error IngestError.emptyDocument ∧
      (ingest_document split extract st upload document_id user_id title
          notes).1.indexSnapshot = st.indexSnapshot ∧
      (∀ split2 : String → List String,
        ingest_document split2 extract st upload document_id user_id title notes =
          ingest_document split extract st upload document_id user_id title notes) ∧
      ∀ (searchFn : SearchFn) (q uid : String) (k : Nat),
        queryDocuments searchFn
            (ingest_document split extract st upload document_id user_id title
              notes).1 q uid k =
          queryDocuments searchFn st q uid k := by
  have hmain : ingest_document split extract st upload document_id user_id title notes =
      (FileSystem.mk
          (setFile st.uploads (uploadTarget document_id upload.filename)
            upload.contents)
          st.indexSnapshot,
        Except.error IngestError.emptyDocument) := by
    simp only [ingest_document]
    rw [if_pos h]
  refine ⟨by rw [hmain], by rw [hmain], ?_, ?_⟩
  · intro split2
    simp [ingest_document, h]
  · intro searchFn q uid k
    rw [hmain]
    rfl

/-- C5 witness: ingesting the empty upload into the populated sample
state fails with the empty-document error and leaves search results
unchanged. -/
theorem ingest_empty_atomic_witness :
    (ingest_document (fun s => [s]) (fun s => s) sampleState emptyUpload
        "d8" "u8" "T8" none).2 = Except.error IngestError.emptyDocument ∧
      (ingest_document (fun s => [s]) (fun s => s) sampleState emptyUpload
          "d8" "u8" "T8" none).1.indexSnapshot = sampleState.indexSnapshot ∧
      (∀ split2 : String → List String,
        ingest_document split2 (fun s => s) sampleState emptyUpload
            "d8" "u8" "T8" none =
          ingest_document (fun s => [s]) (fun s => s) sampleState emptyUpload
            "d8" "u8" "T8" none) ∧
      ∀ (searchFn : SearchFn) (q uid : String) (k : Nat),
        queryDocuments searchFn
            (ingest_document (fun s => [s]) (fun s => s) sampleState emptyUpload
              "d8" "u8" "T8" none).1 q uid k =
          queryDocuments searchFn sampleState q uid k :=
  ingest_empty_atomic (fun s => [s]) (fun s => s) sampleState emptyUpload
    "d8" "u8" "T8" none (by decide)

/-- C6: when retrieval completes with no chunks for the caller (the
empty-index state), `generate_answer` returns the fixed no-documents
reply — empty chunk and citation lists — and the result is the same
for every model-call function, i.e. no model call can influence it. -/
theorem no_documents_answer (searchFn : SearchFn) (st : FileSystem)
    (q uid : String) (k : Nat)
    (h : queryDocuments searchFn st q uid k = Except.ok []) :
    ∀ complete : ModelCall,
      generate_answer searchFn st complete q uid k =
        Except.ok noDocumentsAnswer := by
  intro complete
  simp only [generate_answer]
  rw [h]
  rfl

/-- C6 witness: on the empty-index state, user u3's query gets the
fixed no-documents answer. -/
theorem no_documents_answer_witness :
    generate_answer sampleSearch emptyDirState (fun _ _ => Except.ok ("A", 5))
        "q" "u3" 2 = Except.ok noDocumentsAnswer :=
  no_documents_answer sampleSearch emptyDirState "q" "u3" 2 rfl
    (fun _ _ => Except.ok ("A", 5))

/-- C7 (code bug): the claim's premise — retrieval returned at least
one chunk — never holds: at every state that would produce chunks,
`generate_answer` raises `NameError` during retrieval (line 182,
outside the `try`), so the exception-preserving branch of lines 245-251
is unreachable and the exception propagates instead of being converted
into a preserved-chunks result. -/
theorem generation_failure_code_bug :
    generate_answer sampleSearch sampleState (fun _ _ => Except.error "boom")
        "q" "u1" 2 = Except.error PyError.nameError :=
  rfl

/-- C8 (code bug): at any populated-index state `query_documents`
raises `NameError` inside `_load_or_create_index` before any search is
issued — no `top_k * 3` over-fetch ever happens and no chunk list is
returned; at the empty-index state it returns `[]` without searching. -/
theorem overfetch_code_bug :
    queryDocuments sampleSearch sampleState "q" "u1" 5 =
      Except.error PyError.nameError :=
  rfl

/-- C9 counterexample: at a populated-index state the Retrieval Engine
returns no ranked chunk list at all (it raises `NameError` before
searching), so the claimed deduplicated-by-document result list does
not exist at this input. -/
theorem retrieval_dedup_ce :
    ¬ ∃ r : List Chunk,
      queryDocuments sampleSearch sampleState "q" "u1" 2 = Except.ok r := by
  intro hex
  obtain ⟨r, hr⟩ := hex
  rw [show queryDocuments sampleSearch sampleState "q" "u1" 2 =
      Except.error PyError.nameError from rfl] at hr
  exact Except.noConfusion hr

/-- C9 amended: the Retrieval Engine contains no per-document
deduplication step; it never returns a non-empty chunk list at all —
with no persisted snapshot it returns `[]`, and with one it raises
`NameError` before searching — so any list it does return is trivially
free of repeated `document_id`s only by being empty.  (Deduplication by
`(document_id, title)` exists solely in the citation-building loop of
the Answer Generator.) -/
theorem retrieval_no_dedup (searchFn : SearchFn) (st : FileSystem)
    (q uid : String) (k : Nat) :
    (st.indexSnapshot = none →
      queryDocuments searchFn st q uid k = Except.ok []) ∧
    (∀ entries, st.indexSnapshot = some entries →
      queryDocuments searchFn st q uid k = Except.error PyError.nameError) ∧
    ∀ r, queryDocuments searchFn st q uid k = Except.ok r →
      (r.map Chunk.document_id).Nodup := by
  refine ⟨?_, ?_, ?_⟩
  · intro h
    simp [queryDocuments, loadOrCreateIndex, h]
  · intro entries h
    simp [queryDocuments, loadOrCreateIndex, h]
  · intro r hr
    cases hsnap : st.indexSnapshot with
    | none =>
        have hq : queryDocuments searchFn st q uid k = Except.ok [] := by
          simp [queryDocuments, loadOrCreateIndex, hsnap]
        rw [hq] at hr
        injection hr with hr2
        subst hr2
        simp
    | some entries =>
        have hq : queryDocuments searchFn st q uid k =
            Except.error PyError.nameError := by
          simp [queryDocuments, loadOrCreateIndex, hsnap]
        rw [hq] at hr
        exact Except.noConfusion hr

/-- C9 witness: the amended characterization evaluated on the two
sample states. -/
theorem retrieval_no_dedup_witness :
    queryDocuments sampleSearch emptyDirState "q" "u1" 2 = Except.ok [] ∧
      queryDocuments sampleSearch sampleState "q" "u1" 2 =
        Except.error PyError.nameError ∧
      (([] : List Chunk).map Chunk.document_id).Nodup :=
  ⟨(retrieval_no_dedup sampleSearch emptyDirState "q" "u1" 2).1 rfl,
   (retrieval_no_dedup sampleSearch sampleState "q" "u1" 2).2.1
     [entry1, entry2, entry3] rfl,
   (retrieval_no_dedup sampleSearch emptyDirState "q" "u1" 2).2.2 []
     ((retrieval_no_dedup sampleSearch emptyDirState "q" "u1" 2).1 rfl)⟩

/-- C10: every ingestion — all of which fail: the empty-document and
chunking `ValueError`s, and the `NameError` at the store step that
every other input reaches — has already written the raw upload bytes
at the deterministic truthy path `document_id + "_" + (filename or
"document")` in the returned state, and this write is not rolled back;
only the vector-index snapshot is left untouched. -/
theorem failed_ingest_writes_upload (split : String → List String)
    (extract : String → String) (st : FileSystem) (upload : Upload)
    (document_id user_id title : String) (notes : Option String) :
    (∃ e, (ingest_document split extract st upload document_id user_id title
        notes).2 = Except.error e) ∧
      (ingest_document split extract st upload document_id user_id title
          notes).1.uploads.lookup (uploadTarget document_id upload.filename) =
        some upload.contents ∧
      (ingest_document split extract st upload document_id user_id title
          notes).1.indexSnapshot = st.indexSnapshot := by
  obtain ⟨e, he⟩ :=
    ingest_always_fails split extract st upload document_id user_id title notes
  rw [he]
  exact ⟨⟨e, rfl⟩, lookup_setFile _ _ _, rfl⟩

end Vault
